import Mathlib

/-!
Verification of the GeoCroissant → OGC-TDML metadata converter.

The definitions below are a shallow embedding of
`OGC-TDML to GeoCroissant Support/GeoCroissant to OGC-TDML/geocroissant_to_ogc-tdml_converter.py`
(function `convert_geocroissant_to_tdml_manual`), the current converter that the
specification describes.  The band/class extraction of the older variant
`OGC-TDML to GeoCroissant Support/geocroissant_to_ogc-tdml_converter.py`
(the record-set field shapes) is embedded as `fieldBands` / `fieldClasses`.

Modelling conventions:
* A JSON object is modelled by a structure holding exactly the keys the
  converter reads; `Option` distinguishes an absent key from a present one
  where the code distinguishes them (`dict.get` with/without default,
  `'k' in d` tests, truthiness).  Keys the converter never reads are not
  modelled; consequently a record-set object is "falsy" (Python `not d`)
  exactly when both of its modelled keys are absent.
* Python string falsiness (`not s`) is the test `s = ""`; for keys whose
  absent-default is `''` the model stores a plain `String` ("" ≡ absent),
  which is exactly the distinction the code can make.
* `print` diagnostics are modelled by the `Warn` values a run emits, and
  `raise` by the `Except.error` branch carrying the Python exception class
  and message.
-/

/-- Substring test on character lists: does the list start with `sub`?
(Embeds Python `str.startswith`.) -/
def listStartsWith : List Char → List Char → Bool
  | [], _ => true
  | _ :: _, [] => false
  | a :: as, b :: bs => a == b && listStartsWith as bs

/-- Substring containment on character lists (embeds Python `sub in s`). -/
def containsSub (sub : List Char) : List Char → Bool
  | [] => listStartsWith sub []
  | c :: rest => listStartsWith sub (c :: rest) || containsSub sub rest

/-- `str.startswith` on strings. -/
def strStartsWith (pre s : String) : Bool :=
  listStartsWith pre.toList s.toList

/-- Python `sub in s` on strings. -/
def strContainsSub (sub s : String) : Bool :=
  containsSub sub.toList s.toList

/-- One entry of a `bandConfiguration` object (keys `name`, `wavelength`,
`hlsBand`, each possibly absent). -/
structure BandInfo where
  name : Option String
  wavelength : Option String
  hlsBand : Option String
deriving DecidableEq

/-- One element of the top-level `geocr:sensorCharacteristics` array; its
`bandConfiguration` is an object modelled as an ordered association list
(Python dicts preserve insertion order). -/
structure SensorChar where
  bandConfiguration : List (String × BandInfo)
deriving DecidableEq

/-- The `geocr:bandConfiguration` object carried by a record-set field
(shape read by the older converter variant): `totalBands` plus the
`band1..bandN` keys as an association list. -/
structure FieldBandConfig where
  totalBands : Nat
  entries : List (String × BandInfo)
deriving DecidableEq

/-- A record-set field object: its `name` (absent ≡ ""), and the two
namespaced keys the older converter variant reads. -/
structure RSField where
  name : String
  bandConfiguration : Option FieldBandConfig
  classValues : Option (List (String × String))
deriving DecidableEq

/-- A `recordSet` entry.  `name` is `none` when the key is absent
(`rs.get('name')` yields `None`); `field` is `none` when the `field` key is
absent.  An entry with both keys absent models the empty JSON object,
which is falsy in Python. -/
structure RecordSet where
  name : Option String
  field : Option (List RSField)
deriving DecidableEq

/-- Python truthiness of a record-set object: it has at least one
(modelled) key. -/
def rsTruthy (rs : RecordSet) : Bool :=
  rs.name.isSome || rs.field.isSome

/-- The `geocr:fileListing` object: `images`/`annotations`, each with
`train`/`val` URL lists (absent lists ≡ []). -/
structure FileListing where
  imagesTrain : List String
  imagesVal : List String
  annotationsTrain : List String
  annotationsVal : List String
deriving DecidableEq

/-- The `geocr:dataStatistics` object; each counter defaults to 0 when the
key (or the whole object) is absent, exactly as `data_stats.get(k, 0)`. -/
structure DataStats where
  totalSamples : Int
  trainingSamples : Int
  validationSamples : Int
deriving DecidableEq

/-- Value of the top-level `license` key: a JSON string or a list of
strings (the two shapes the code's `isinstance` test distinguishes);
absent ≡ `.str ""`. -/
inductive LicenseVal where
  | str (s : String)
  | list (l : List String)
deriving DecidableEq

/-- One element of the `creator` list: an object (with possibly absent
`name`) or a plain string. -/
inductive CreatorEntry where
  | obj (name : Option String)
  | str (s : String)
deriving DecidableEq

/-- Value of the top-level `creator` key: a list of entries or a single
object; absent ≡ `.list []` (the code's `get('creator', [])`). -/
inductive CreatorsVal where
  | list (cs : List CreatorEntry)
  | single (name : Option String)
deriving DecidableEq

/-- The source GeoCroissant document, restricted to the keys
`convert_geocroissant_to_tdml_manual` reads.
`mlTaskClasses` is `some l` exactly when `geocr:mlTask` is truthy, has a
`classes` key and that value is a list `l` (the three conditions the code
tests before using it); `fileListing` is `none` when `geocr:fileListing`
is absent or the empty (falsy) object. -/
structure SourceDoc where
  atId : String
  idKey : String
  name : Option String
  description : String
  license : LicenseVal
  creator : CreatorsVal
  dateCreated : String
  createdTimeAlt : String
  dateModified : String
  updatedTimeAlt : String
  version : Option String
  recordSet : List RecordSet
  sensorCharacteristics : List SensorChar
  mlTaskClasses : Option (List String)
  fileListing : Option FileListing
  dataStatistics : DataStats
deriving DecidableEq

/-- A TDML band descriptor. -/
structure Band where
  name : String
  description : String
  wavelength : String
  hlsBand : String
deriving DecidableEq

/-- A TDML class entry (`{key, value}`). -/
structure ClassEntry where
  key : String
  value : String
deriving DecidableEq

/-- A TDML pixel label. -/
structure PixelLabel where
  type : String
  imageUrl : List String
  imageFormat : List String
  className : String
deriving DecidableEq

/-- A TDML training-data entry. -/
structure DataEntry where
  type : String
  id : String
  dataUrl : List String
  labels : List PixelLabel
deriving DecidableEq

/-- A TDML task record. -/
structure TaskRec where
  type : String
  id : String
  name : String
  description : String
  inputType : String
  outputType : String
  taskType : String
deriving DecidableEq

/-- The assembled TDML output object. -/
structure Tdml where
  type : String
  id : String
  name : String
  description : String
  license : String
  providers : List String
  createdTime : String
  updatedTime : String
  version : String
  tasks : List TaskRec
  classes : List ClassEntry
  bands : List Band
  data : List DataEntry
  amountOfTrainingData : Nat
  numberOfClasses : Nat
  dataStatistics : DataStats
deriving DecidableEq

/-- The diagnostics the converter prints, identified by their print site. -/
inductive Warn where
  | usingFirstRecordSet (name : String)
  | noClassesDefault
  | noBandsDefault
  | noFileListing
  | noPairs
  | skippedEntry (i : Nat)
  | missingRequiredFields (fields : List String)
deriving DecidableEq

/-- A raised Python exception, by class and message (output-path strings
that the code interpolates into messages are elided). -/
inductive PyError where
  | fileNotFound (msg : String)
  | valueError (msg : String)
  | ioError (msg : String)
deriving DecidableEq

/-- The loader's not-found condition (`FileNotFoundError`, line 93). -/
def errFileNotFound : PyError :=
  PyError.fileNotFound ("GeoCroissant file not found")

/-- The loader's malformed-input condition (`ValueError`, line 95). -/
def errInvalidJSON : PyError :=
  PyError.valueError ("Invalid JSON in GeoCroissant file")

/-- The fatal condition for an undeterminable main record set
(`ValueError`, line 156). -/
def errNoRecordSet : PyError :=
  PyError.valueError ("Could not find any recordSet in the GeoCroissant data")

/-- ASCII lowercasing on the character list of a string (embeds
`str.lower()`; the marker searched for is pure ASCII). -/
def lowerChars (l : List Char) : List Char :=
  l.map Char.toLower

/-- The record-set match test of lines 146-149:
`rs.get('name') == 'hls_burn_scars' or 'hls' in rs.get('name','').lower()`. -/
def matchesHls (rs : RecordSet) : Bool :=
  rs.name == some ("hls_burn_scars")
    || containsSub (("hls").toList) (lowerChars ((rs.name.getD ("")).toList))

/-- Main record-set selection (lines 143-156): first matching entry, else
the first entry with a warning; raises when the list is empty or the
fallback entry is a falsy (empty) object. -/
def selectMainRecordSet (rss : List RecordSet) :
    Except PyError RecordSet × List Warn :=
  match rss.find? matchesHls with
  | some rs => (Except.ok rs, [])
  | none =>
    match rss with
    | [] => (Except.error errNoRecordSet, [])
    | rs :: _ =>
      if rsTruthy rs then
        (Except.ok rs, [Warn.usingFirstRecordSet (rs.name.getD ("unknown"))])
      else
        -- the code prints the fallback warning and then still raises,
        -- because `if not main_record_set` re-tests the (falsy) fallback
        (Except.error errNoRecordSet,
          [Warn.usingFirstRecordSet (rs.name.getD ("unknown"))])

/-- Identifier resolution (line 98): `@id` or `id` or the literal default. -/
def identifierOf (doc : SourceDoc) : String :=
  if doc.atId = "" then
    (if doc.idKey = "" then ("hls_burn_scars_dataset") else doc.idKey)
  else doc.atId

/-- Name resolution (line 99): default applies only when the key is absent. -/
def nameOf (doc : SourceDoc) : String :=
  doc.name.getD ("HLS_Burn_Scars")

/-- Description resolution (lines 100-102). -/
def descriptionOf (doc : SourceDoc) : String :=
  if doc.description = "" then ("No description provided.") else doc.description

/-- License resolution (lines 105-109). -/
def licenseOf (doc : SourceDoc) : String :=
  let l := match doc.license with
    | LicenseVal.str s => s
    | LicenseVal.list ls => ls.headD ("")
  if l = "" then ("https://creativecommons.org/licenses/by/4.0/") else l

/-- Provider extraction (lines 112-129). -/
def providersOf (doc : SourceDoc) : List String :=
  let ps := match doc.creator with
    | CreatorsVal.list cs =>
      cs.foldl (fun acc c =>
        match c with
        | CreatorEntry.obj n =>
          if n.getD ("") = "" then acc else acc ++ [n.getD ("")]
        | CreatorEntry.str s => acc ++ [s]) []
    | CreatorsVal.single n =>
      if n.getD ("") = "" then [] else [n.getD ("")]
  if ps = [] then [("IBM-NASA Prithvi Models Family")] else ps

/-- Created-timestamp resolution (lines 132-135). -/
def createdTimeOf (doc : SourceDoc) : String :=
  let c := if doc.dateCreated = "" then doc.createdTimeAlt else doc.dateCreated
  if c = "" then ("2025-01-17T00:00:00Z") else c

/-- Updated-timestamp resolution (lines 133-137). -/
def updatedTimeOf (doc : SourceDoc) : String :=
  let c := if doc.dateModified = "" then doc.updatedTimeAlt else doc.dateModified
  if c = "" then ("2025-01-17T00:00:00Z") else c

/-- One band descriptor built from a `bandConfiguration` entry of the
top-level shape (lines 170-182); the name default interpolates the full
key (`f'Band {band_key}'`). -/
def sensorBand1 (p : String × BandInfo) : Band :=
  { name := (p.2.name.getD ("Band " ++ p.1))
    description := (p.2.name.getD ("Band " ++ p.1)) ++ " band ("
      ++ p.2.hlsBand.getD ("") ++ ")"
    wavelength := p.2.wavelength.getD ("")
    hlsBand := p.2.hlsBand.getD ("") }

/-- Band extraction from the top-level
`geocr:sensorCharacteristics[0].bandConfiguration` shape (lines 166-182):
one descriptor per key starting with `band`, in object iteration order. -/
def sensorBands (doc : SourceDoc) : List Band :=
  match doc.sensorCharacteristics with
  | [] => []
  | sc :: _ =>
    (sc.bandConfiguration.filter (fun p => strStartsWith ("band") p.1)).map
      sensorBand1

/-- The fixed class-name → key table of lines 190-194. -/
def class_mapping (n : String) : Option String :=
  if n = "NotBurned" then some ("0")
  else if n = "BurnScar" then some ("1")
  else if n = "NoData" then some ("-1")
  else none

/-- Class extraction from `geocr:mlTask.classes` (lines 185-201): each name
keyed through the table, unrecognized names keyed by the string of the
current class count. -/
def mlClasses (names : List String) : List ClassEntry :=
  names.foldl
    (fun acc cn =>
      acc ++ [{ key := (class_mapping cn).getD (toString acc.length)
                value := cn }]) []

/-- The classes the converter derives from the document before the default
substitution. -/
def mlClassesOf (doc : SourceDoc) : List ClassEntry :=
  mlClasses (doc.mlTaskClasses.getD [])

/-- The canonical 3-class default (lines 205-209). -/
def DEFAULT_CLASSES : List ClassEntry :=
  [{ key := ("0"), value := ("NotBurned") },
   { key := ("1"), value := ("BurnScar") },
   { key := ("-1"), value := ("NoData") }]

/-- The canonical 6-band HLS default (lines 214-221). -/
def DEFAULT_BANDS : List Band :=
  [{ name := ("Blue"), description := ("Blue band (B02)"),
     wavelength := ("490nm"), hlsBand := ("B02") },
   { name := ("Green"), description := ("Green band (B03)"),
     wavelength := ("560nm"), hlsBand := ("B03") },
   { name := ("Red"), description := ("Red band (B04)"),
     wavelength := ("665nm"), hlsBand := ("B04") },
   { name := ("NIR"), description := ("NIR band (B8A)"),
     wavelength := ("865nm"), hlsBand := ("B8A") },
   { name := ("SW1"), description := ("SW1 band (B11)"),
     wavelength := ("1610nm"), hlsBand := ("B11") },
   { name := ("SW2"), description := ("SW2 band (B12)"),
     wavelength := ("2190nm"), hlsBand := ("B12") }]

/-- The single synthesized task (lines 231-239). -/
def DEFAULT_TASKS : List TaskRec :=
  [{ type := ("EOTask"), id := ("task_0"),
     name := ("Burn Scar Segmentation"),
     description :=
       ("Semantic segmentation of burn scars in satellite imagery using HLS data."),
     inputType := ("image"), outputType := ("mask"),
     taskType := ("segmentation") }]

/-- Output classes after the default substitution of lines 204-210. -/
def classesOf (doc : SourceDoc) : List ClassEntry :=
  if mlClassesOf doc = [] then DEFAULT_CLASSES else mlClassesOf doc

/-- Output bands after the default substitution of lines 213-222. -/
def bandsOf (doc : SourceDoc) : List Band :=
  if sensorBands doc = [] then DEFAULT_BANDS else sensorBands doc

/-- The combined image sequence, train then val (line 262). -/
def allImages (doc : SourceDoc) : List String :=
  match doc.fileListing with
  | none => []
  | some fl => fl.imagesTrain ++ fl.imagesVal

/-- The combined annotation sequence, train then val (line 263). -/
def allAnnotations (doc : SourceDoc) : List String :=
  match doc.fileListing with
  | none => []
  | some fl => fl.annotationsTrain ++ fl.annotationsVal

/-- The loop bound of lines 266-273:
`min(max_samples, min_pairs)` with
`max_samples = min(50, total_samples) if total_samples > 0 else min(50, min_pairs)`. -/
def cap (imgs anns : List String) (ts : Int) : Nat :=
  (min
    (if 0 < ts then min 50 ts
     else min 50 ((min imgs.length anns.length : Nat) : Int))
    ((min imgs.length anns.length : Nat) : Int)).toNat

/-- The body of iteration `i` of the loop of lines 273-293: `none` when the
pair is skipped for a missing URL, otherwise the built data entry with the
source-index id `data_{i}`. -/
def entryStep (imgs anns : List String) (i : Nat) : Option DataEntry :=
  if imgs.getD i ("") = "" ∨ anns.getD i ("") = "" then none
  else some
    { type := ("EOTrainingData")
      id := ("data_") ++ toString i
      dataUrl := [imgs.getD i ("")]
      labels := [{ type := ("PixelLabel")
                   imageUrl := [anns.getD i ("")]
                   imageFormat := [("image/tiff")]
                   className := ("") }] }

/-- The data entries the loop of lines 273-293 appends (a `for` with
`continue` is a `filterMap` over the index range). -/
def dataEntries (imgs anns : List String) (n : Nat) : List DataEntry :=
  (List.range n).filterMap (entryStep imgs anns)

/-- The skip warnings the same loop prints. -/
def skipWarns (imgs anns : List String) (n : Nat) : List Warn :=
  (List.range n).filterMap (fun i =>
    if imgs.getD i ("") = "" ∨ anns.getD i ("") = "" then
      some (Warn.skippedEntry i)
    else none)

/-- Data/label assembly (lines 242-293): empty (with a warning) when the
file listing is absent/falsy or no pair exists, else the capped loop. -/
def dataOf (doc : SourceDoc) : List DataEntry × List Warn :=
  match doc.fileListing with
  | none => ([], [Warn.noFileListing])
  | some fl =>
    let imgs := fl.imagesTrain ++ fl.imagesVal
    let anns := fl.annotationsTrain ++ fl.annotationsVal
    if min imgs.length anns.length = 0 then ([], [Warn.noPairs])
    else
      (dataEntries imgs anns (cap imgs anns doc.dataStatistics.totalSamples),
       skipWarns imgs anns (cap imgs anns doc.dataStatistics.totalSamples))

/-- The required-field list of line 320. -/
def REQUIRED_FIELDS : List String :=
  [("type"), ("id"), ("name"), ("description"), ("license"), ("providers"),
   ("createdTime"), ("updatedTime"), ("version"), ("tasks"), ("classes"),
   ("bands"), ("data")]

/-- Python falsiness of one output field, for the check of line 321. -/
def requiredFieldFalsy (t : Tdml) (f : String) : Bool :=
  if f = "type" then t.type == ""
  else if f = "id" then t.id == ""
  else if f = "name" then t.name == ""
  else if f = "description" then t.description == ""
  else if f = "license" then t.license == ""
  else if f = "providers" then t.providers.isEmpty
  else if f = "createdTime" then t.createdTime == ""
  else if f = "updatedTime" then t.updatedTime == ""
  else if f = "version" then t.version == ""
  else if f = "tasks" then t.tasks.isEmpty
  else if f = "classes" then t.classes.isEmpty
  else if f = "bands" then t.bands.isEmpty
  else if f = "data" then t.data.isEmpty
  else false

/-- The missing-field diagnostic list of line 321. -/
def missingFields (t : Tdml) : List String :=
  REQUIRED_FIELDS.filter (requiredFieldFalsy t)

/-- Everything after record-set selection (lines 158-324): the nested
converter extracts `fields = main_record_set.get('field', [])` but never
uses it, so the assembled output does not depend on the selected record
set.  Returns the output object and the warnings printed after
selection, in print order. -/
def assemble (doc : SourceDoc) : Tdml × List Warn :=
  let classes := classesOf doc
  let bands := bandsOf doc
  let dw := dataOf doc
  let t : Tdml :=
    { type := ("EOTrainingDataset")
      id := identifierOf doc
      name := nameOf doc
      description := descriptionOf doc
      license := licenseOf doc
      providers := providersOf doc
      createdTime := createdTimeOf doc
      updatedTime := updatedTimeOf doc
      version := doc.version.getD ("1.0.0")
      tasks := DEFAULT_TASKS
      classes := classes
      bands := bands
      data := dw.1
      amountOfTrainingData := dw.1.length
      numberOfClasses := classes.length
      dataStatistics := doc.dataStatistics }
  (t,
    (if mlClassesOf doc = [] then [Warn.noClassesDefault] else [])
      ++ (if sensorBands doc = [] then [Warn.noBandsDefault] else [])
      ++ dw.2
      ++ (if missingFields t = [] then []
          else [Warn.missingRequiredFields (missingFields t)]))

/-- `convert_geocroissant_to_tdml_manual` on an already-parsed document:
the fatal record-set condition or the assembled output, with all
printed warnings. -/
def remap (doc : SourceDoc) : Except PyError Tdml × List Warn :=
  match selectMainRecordSet doc.recordSet with
  | (Except.error e, w) => (Except.error e, w)
  | (Except.ok _, w) => (Except.ok (assemble doc).1, w ++ (assemble doc).2)

/-- Outcome of the loader (lines 88-95): the path did not resolve, the
bytes were not valid JSON, or a parsed document. -/
inductive LoadResult where
  | notFound
  | badJSON
  | parsed (doc : SourceDoc)

/-- The loader's error mapping (lines 88-95). -/
def loadStage : LoadResult → Except PyError SourceDoc
  | LoadResult.notFound => Except.error errFileNotFound
  | LoadResult.badJSON => Except.error errInvalidJSON
  | LoadResult.parsed doc => Except.ok doc

/-- The whole conversion: load, then remap. -/
def runConvert (l : LoadResult) : Except PyError Tdml × List Warn :=
  match loadStage l with
  | Except.error e => (Except.error e, [])
  | Except.ok doc => remap doc

/-- The writer runs only on a successfully assembled output (lines
326-341 execute only after every possible raise). -/
def writeStage (r : Except PyError Tdml) : Option Tdml :=
  match r with
  | Except.error _ => none
  | Except.ok t => some t

/-- Band extraction of the older converter variant, lines 72-90 of
`OGC-TDML to GeoCroissant Support/geocroissant_to_ogc-tdml_converter.py`:
a field whose name contains `image` carrying `geocr:bandConfiguration`,
iterated `band1..bandN` by numeric index. -/
def fieldBands1 (fld : RSField) : List Band :=
  if strContainsSub ("image") fld.name then
    match fld.bandConfiguration with
    | none => []
    | some bc =>
      (List.range bc.totalBands).filterMap (fun j =>
        ((bc.entries.find? (fun p => p.1 == ("band") ++ toString (j + 1))).map
          (fun p =>
            { name := (p.2.name.getD ("Band " ++ toString (j + 1)))
              description := (p.2.name.getD ("Band " ++ toString (j + 1)))
                ++ " band (" ++ p.2.hlsBand.getD ("") ++ ")"
              wavelength := p.2.wavelength.getD ("")
              hlsBand := p.2.hlsBand.getD ("") })))
  else []

/-- Older-variant band extraction over a field list (lines 68-90). -/
def fieldBands (fields : List RSField) : List Band :=
  fields.foldl (fun acc fld => acc ++ fieldBands1 fld) []

/-- Class extraction of the older converter variant (lines 93-100): a
field whose name contains the marker for masks carrying
`geocr:classValues`, emitted `{key, value}` verbatim in object order. -/
def fieldClasses1 (fld : RSField) : List ClassEntry :=
  if strContainsSub ("annotation") fld.name then
    match fld.classValues with
    | none => []
    | some cvs => cvs.map (fun p => { key := p.1, value := p.2 })
  else []

/-- Older-variant class extraction over a field list (lines 92-100). -/
def fieldClasses (fields : List RSField) : List ClassEntry :=
  fields.foldl (fun acc fld => acc ++ fieldClasses1 fld) []

/-! ### Auxiliary definitions used by the statements -/

/-- Index-decorated copy of a list starting at `k` (used to describe the
class-key assignment positionally). -/
def withIdx (k : Nat) : List String → List (Nat × String)
  | [] => []
  | a :: as => (k, a) :: withIdx (k + 1) as

/-- Placeholder entry for out-of-range list reads in decidable statements. -/
def NO_ENTRY : DataEntry :=
  ⟨"", "", [], []⟩

/-- Decides whether an emitted data list is ids `data_0, data_1, ...` with
the index taken in the emitted sequence and no gaps (the property the
specification asserts of the ids). -/
def emittedIdsSequential (l : List DataEntry) : Bool :=
  (List.range l.length).all (fun k =>
    (l.getD k NO_ENTRY).id == ("data_") ++ toString k)

/-! ### Concrete source documents used as test vectors -/

/-- A source document with every modelled key absent. -/
def emptyDoc : SourceDoc :=
  ⟨"", "", none, "", LicenseVal.str "", CreatorsVal.list [], "", "", "", "",
   none, [], [], none, none, ⟨0, 0, 0⟩⟩

/-- A record-set entry carrying the sentinel name. -/
def validRS : RecordSet :=
  ⟨some ("hls_burn_scars"), some []⟩

/-- C1 witness document: one valid pair, `totalSamples = 2`. -/
def c1doc : SourceDoc :=
  { emptyDoc with
      recordSet := [validRS]
      fileListing := some ⟨[("x.tif")], [], [("x.mask.tif")], []⟩
      dataStatistics := ⟨2, 0, 0⟩ }

/-- C2 counterexample document: the middle image URL is empty, so the pair
at combined index 1 is skipped and the ids keep the source indices. -/
def c2doc : SourceDoc :=
  { emptyDoc with
      recordSet := [validRS]
      fileListing := some
        ⟨[("a.tif"), (""), ("c.tif")], [],
         [("a.mask.tif"), ("b.mask.tif"), ("c.mask.tif")], []⟩ }

/-- The P5 document: 3 train pairs, 2 val pairs, all URLs non-empty, no
`totalSamples`. -/
def c2docP5 : SourceDoc :=
  { emptyDoc with
      recordSet := [validRS]
      fileListing := some
        ⟨[("ti0"), ("ti1"), ("ti2")], [("vi0"), ("vi1")],
         [("ta0m"), ("ta1m"), ("ta2m")], [("va0m"), ("va1m")]⟩ }

/-- The single entry produced from one valid pair (C2 witness input). -/
def c2e0 : DataEntry :=
  ⟨("EOTrainingData"), ("data_0"), [("x.tif")],
   [⟨("PixelLabel"), [("y.tif")], [("image/tiff")], ("")⟩]⟩

/-- C3 witness document. -/
def c3doc : SourceDoc :=
  { emptyDoc with
      recordSet := [validRS]
      fileListing := some ⟨[("x.tif")], [], [("x.mask.tif")], []⟩ }

/-- C4 concrete document: the combined pair list of property P6. -/
def c4doc : SourceDoc :=
  { emptyDoc with
      recordSet := [validRS]
      fileListing := some
        ⟨[("a.tif"), (""), ("c.tif")], [],
         [("a.mask.tif"), ("b.mask.tif"), ("c.mask.tif")], []⟩ }

/-- C5 counterexample document: a non-empty `recordSet` whose only entry
is the empty JSON object (falsy in Python). -/
def c5docBad : SourceDoc :=
  { emptyDoc with recordSet := [⟨none, none⟩] }

/-- C5 witness document: first entry named `other`, no sentinel match. -/
def c5docW : SourceDoc :=
  { emptyDoc with
      recordSet := [⟨some ("other"), none⟩, ⟨some ("foo"), none⟩] }

/-- C6 witness document: no band or class configuration anywhere. -/
def c6doc : SourceDoc :=
  { emptyDoc with recordSet := [validRS] }

/-- C7 counterexample document: `BurnScar` takes key `1` from the table,
then the unrecognized `Other` takes `str(len(classes)) = "1"` again. -/
def c7doc : SourceDoc :=
  { emptyDoc with
      recordSet := [validRS]
      mlTaskClasses := some [("BurnScar"), ("Other")] }

/-- C8 witness document: `recordSet = []`. -/
def c8doc : SourceDoc :=
  emptyDoc

/-- A fully-populated band-configuration entry. -/
def c9bi : BandInfo :=
  ⟨some ("Blue"), some ("490nm"), some ("B02")⟩

/-- A record-set field carrying the record-set band shape: name contains
`image` and `geocr:bandConfiguration.totalBands` is present. -/
def c9fld : RSField :=
  ⟨("image_field"), some ⟨1, [(("band1"), c9bi)]⟩, none⟩

/-- C9 counterexample document: record-set band shape present, top-level
`geocr:sensorCharacteristics` absent. -/
def c9doc : SourceDoc :=
  { emptyDoc with recordSet := [⟨some ("hls_burn_scars"), some [c9fld]⟩] }

/-- C9 witness document: top-level band shape present. -/
def c9wdoc : SourceDoc :=
  { emptyDoc with
      recordSet := [validRS]
      sensorCharacteristics := [⟨[(("band1"), c9bi)]⟩] }

/-- C10 witness document: `name` present but empty, `description` empty. -/
def c10doc : SourceDoc :=
  { emptyDoc with
      recordSet := [validRS]
      name := some ("") }

/-! ### Helper lemmas -/

/-- A successful remap returns exactly the assembled output (the selected
record set does not influence the assembly, since the converter never
uses the `fields` it extracts from it). -/
theorem remap_ok_eq (doc : SourceDoc) (t : Tdml)
    (h : (remap doc).1 = Except.ok t) : t = (assemble doc).1 := by
  unfold remap at h
  rcases hsel : selectMainRecordSet doc.recordSet with ⟨r, w⟩
  rw [hsel] at h
  cases r with
  | error e => simp at h
  | ok rs =>
    simp at h
    exact h.symm

/-- `filterMap` never lengthens a list. -/
theorem filterMap_length_le_aux {α β : Type} (f : α → Option β) :
    ∀ l : List α, (l.filterMap f).length ≤ l.length := by
  intro l
  induction l with
  | nil => simp
  | cons a as ih =>
    rw [List.filterMap_cons]
    cases f a with
    | none => exact Nat.le_succ_of_le ih
    | some b => simpa using ih

/-- The loop emits at most `n` entries. -/
theorem dataEntries_length_le (imgs anns : List String) (n : Nat) :
    (dataEntries imgs anns n).length ≤ n := by
  unfold dataEntries
  have h := filterMap_length_le_aux (entryStep imgs anns) (List.range n)
  simpa using h

/-- When `totalSamples` is positive, the loop bound is at most
`min(50, totalSamples)`. -/
theorem cap_le_of_pos (imgs anns : List String) (ts : Int) (h : 0 < ts) :
    (cap imgs anns ts : Int) ≤ min 50 ts := by
  unfold cap
  rw [if_pos h]
  simp only [min_def]
  split_ifs <;> omega

/-- When `totalSamples` is not positive, the loop bound is at most
`min(50, min(len(images), len(annotations)))`. -/
theorem cap_le_of_nonpos (imgs anns : List String) (ts : Int) (h : ¬ 0 < ts) :
    cap imgs anns ts ≤ min 50 (min imgs.length anns.length) := by
  unfold cap
  rw [if_neg h]
  simp only [min_def]
  split_ifs <;> omega

/-- Emitted-entry count bound, positive-`totalSamples` case. -/
theorem dataOf_bound_pos (doc : SourceDoc)
    (h : 0 < doc.dataStatistics.totalSamples) :
    (((dataOf doc).1.length : Int))
      ≤ min 50 doc.dataStatistics.totalSamples := by
  have hmin : (0 : Int) ≤ min 50 doc.dataStatistics.totalSamples :=
    le_min (by norm_num) h.le
  unfold dataOf
  cases hfl : doc.fileListing with
  | none => simpa using hmin
  | some fl =>
    dsimp only
    split
    · simpa using hmin
    · dsimp only
      have h1 := dataEntries_length_le (fl.imagesTrain ++ fl.imagesVal)
        (fl.annotationsTrain ++ fl.annotationsVal)
        (cap (fl.imagesTrain ++ fl.imagesVal)
          (fl.annotationsTrain ++ fl.annotationsVal)
          doc.dataStatistics.totalSamples)
      have h2 := cap_le_of_pos (fl.imagesTrain ++ fl.imagesVal)
        (fl.annotationsTrain ++ fl.annotationsVal)
        doc.dataStatistics.totalSamples h
      omega

/-- Emitted-entry count bound, non-positive-`totalSamples` case. -/
theorem dataOf_bound_nonpos (doc : SourceDoc)
    (h : ¬ 0 < doc.dataStatistics.totalSamples) :
    (dataOf doc).1.length
      ≤ min 50 (min (allImages doc).length (allAnnotations doc).length) := by
  unfold dataOf
  cases hfl : doc.fileListing with
  | none => simp
  | some fl =>
    dsimp only
    split
    · simp
    · dsimp only
      have h1 := dataEntries_length_le (fl.imagesTrain ++ fl.imagesVal)
        (fl.annotationsTrain ++ fl.annotationsVal)
        (cap (fl.imagesTrain ++ fl.imagesVal)
          (fl.annotationsTrain ++ fl.annotationsVal)
          doc.dataStatistics.totalSamples)
      have h2 := cap_le_of_nonpos (fl.imagesTrain ++ fl.imagesVal)
        (fl.annotationsTrain ++ fl.annotationsVal)
        doc.dataStatistics.totalSamples h
      have h3 : allImages doc = fl.imagesTrain ++ fl.imagesVal := by
        unfold allImages
        rw [hfl]
      have h4 : allAnnotations doc = fl.annotationsTrain ++ fl.annotationsVal := by
        unfold allAnnotations
        rw [hfl]
      rw [h3, h4]
      omega

/-- `withIdx` preserves length. -/
theorem withIdx_length (names : List String) :
    ∀ k, (withIdx k names).length = names.length := by
  induction names with
  | nil => intro k; rfl
  | cons n ns ih =>
    intro k
    simp [withIdx, ih]

/-- Unrolling the class foldl: each name contributes one entry whose key
is the table image when recognized, else the string of its position. -/
theorem mlClasses_foldl_eq (names : List String) :
    ∀ acc : List ClassEntry,
      names.foldl
        (fun acc cn =>
          acc ++ [{ key := (class_mapping cn).getD (toString acc.length)
                    value := cn }]) acc
      = acc ++ (withIdx acc.length names).map
          (fun p => { key := (class_mapping p.2).getD (toString p.1)
                      value := p.2 }) := by
  induction names with
  | nil =>
    intro acc
    simp [withIdx]
  | cons n ns ih =>
    intro acc
    rw [List.foldl_cons, ih]
    simp [withIdx]

/-- The positional description of `mlClasses`. -/
theorem mlClasses_eq (names : List String) :
    mlClasses names
      = (withIdx 0 names).map
          (fun p => { key := (class_mapping p.2).getD (toString p.1)
                      value := p.2 }) := by
  unfold mlClasses
  simpa using mlClasses_foldl_eq names []

/-- `mlClasses` emits one entry per name. -/
theorem mlClasses_length (names : List String) :
    (mlClasses names).length = names.length := by
  rw [mlClasses_eq]
  simp [withIdx_length]

/-- The table is injective where defined. -/
theorem class_mapping_inj (a b : String)
    (ha : (class_mapping a).isSome = true)
    (hab : class_mapping a = class_mapping b) : a = b := by
  unfold class_mapping at ha hab
  split_ifs at ha hab <;> simp_all

/-- With every name recognized, the emitted keys are the table images of
the names, positionally. -/
theorem withIdx_keys_recognized (names : List String) :
    ∀ k, (∀ n ∈ names, (class_mapping n).isSome = true) →
      ((withIdx k names).map
          (fun p => ({ key := (class_mapping p.2).getD (toString p.1)
                       value := p.2 } : ClassEntry))).map ClassEntry.key
        = names.map (fun n => (class_mapping n).getD ("")) := by
  induction names with
  | nil => intro k _; rfl
  | cons n ns ih =>
    intro k h
    have hn := h n (by simp)
    rcases Option.isSome_iff_exists.mp hn with ⟨v, hv⟩
    have hrec := ih (k + 1) (fun m hm => h m (by simp [hm]))
    simp [withIdx, hv, hrec]

/-! ### Claims -/

/-- Claim C1 (cap law): for every source document for which the conversion
succeeds, the number of emitted data entries never exceeds
`min(50, totalSamples)` when `geocr:dataStatistics.totalSamples > 0`, and
otherwise never exceeds `min(50, min(len(images), len(annotations)))`,
the image and annotation sequences being train concatenated with val. -/
theorem c1_cap_law (doc : SourceDoc) (t : Tdml)
    (h : (remap doc).1 = Except.ok t) :
    (0 < doc.dataStatistics.totalSamples →
      ((t.data.length : Int) ≤ min 50 doc.dataStatistics.totalSamples)) ∧
    (¬ 0 < doc.dataStatistics.totalSamples →
      t.data.length
        ≤ min 50 (min (allImages doc).length (allAnnotations doc).length)) := by
  have ht := remap_ok_eq doc t h
  subst ht
  exact ⟨fun hpos => dataOf_bound_pos doc hpos,
         fun hnp => dataOf_bound_nonpos doc hnp⟩

/-- Witness for C1 at a concrete document (one pair, `totalSamples = 2`). -/
theorem c1_cap_law_witness :
    ((assemble c1doc).1.data.length : Int)
      ≤ min 50 c1doc.dataStatistics.totalSamples :=
  (c1_cap_law c1doc (assemble c1doc).1 rfl).1 (by decide)

/-- Claim C2 counterexample: on `c2doc` (combined pairs
`("a.tif","a.mask.tif"), ("","b.mask.tif"), ("c.tif","c.mask.tif")`) the
emitted ids are `data_0, data_2`: the id uses the source pair index, so
the emitted sequence has a gap, contradicting the claim that ids are the
index within the emitted output sequence with no gaps. -/
theorem c2_counterexample :
    (remap c2doc).1 = Except.ok (assemble c2doc).1 ∧
    (assemble c2doc).1.data.map DataEntry.id = [("data_0"), ("data_2")] ∧
    emittedIdsSequential ((assemble c2doc).1.data) = false :=
  ⟨rfl, rfl, by decide⟩

/-- Claim C2 (amended): each emitted entry's id is `data_<i>` where `i` is
the pair's index in the combined source pair list (these coincide with
the emitted indices exactly when no pair is skipped), and the entry
carries the image URL and one label with the annotation URL at that same
source index; in particular the P5 document (3 train + 2 val pairs, all
URLs non-empty, no `totalSamples`) yields exactly 5 entries with ids
`data_0..data_4` and labels aligned with the annotations. -/
theorem c2_source_index_ids :
    (∀ imgs anns n e, e ∈ dataEntries imgs anns n →
      ∃ i, i < n ∧ ¬ (imgs.getD i ("") = "" ∨ anns.getD i ("") = "") ∧
        e.id = ("data_") ++ toString i ∧
        e.dataUrl = [imgs.getD i ("")] ∧
        e.labels = [⟨("PixelLabel"), [anns.getD i ("")], [("image/tiff")], ("")⟩]) ∧
    ((remap c2docP5).1 = Except.ok (assemble c2docP5).1 ∧
      (assemble c2docP5).1.data.map DataEntry.id
        = [("data_0"), ("data_1"), ("data_2"), ("data_3"), ("data_4")] ∧
      (assemble c2docP5).1.data.map (fun e => e.labels.map PixelLabel.imageUrl)
        = [[[("ta0m")]], [[("ta1m")]], [[("ta2m")]], [[("va0m")]], [[("va1m")]]]) := by
  constructor
  · intro imgs anns n e he
    unfold dataEntries at he
    rcases List.mem_filterMap.mp he with ⟨i, hi, hstep⟩
    refine ⟨i, List.mem_range.mp hi, ?_⟩
    unfold entryStep at hstep
    by_cases hc : imgs.getD i ("") = "" ∨ anns.getD i ("") = ""
    · rw [if_pos hc] at hstep
      cases hstep
    · rw [if_neg hc] at hstep
      cases hstep
      exact ⟨hc, rfl, rfl, rfl⟩
  · exact ⟨rfl, rfl, rfl⟩

/-- Witness for C2 (amended) at one concrete valid pair. -/
theorem c2_source_index_ids_witness :
    ∃ i, i < 1 ∧
      ¬ ([("x.tif")].getD i ("") = "" ∨ [("y.tif")].getD i ("") = "") ∧
      c2e0.id = ("data_") ++ toString i ∧
      c2e0.dataUrl = [[("x.tif")].getD i ("")] ∧
      c2e0.labels
        = [⟨("PixelLabel"), [[("y.tif")].getD i ("")], [("image/tiff")], ("")⟩] :=
  c2_source_index_ids.1 [("x.tif")] [("y.tif")] 1 c2e0 (by decide)

/-- Claim C3 (count invariants): every successfully produced output has
`amountOfTrainingData = len(data)` and `numberOfClasses = len(classes)`. -/
theorem c3_count_invariants (doc : SourceDoc) (t : Tdml)
    (h : (remap doc).1 = Except.ok t) :
    t.amountOfTrainingData = t.data.length
      ∧ t.numberOfClasses = t.classes.length := by
  have ht := remap_ok_eq doc t h
  subst ht
  exact ⟨rfl, rfl⟩

/-- Witness for C3 at a concrete document. -/
theorem c3_count_invariants_witness :
    (assemble c3doc).1.amountOfTrainingData = (assemble c3doc).1.data.length
      ∧ (assemble c3doc).1.numberOfClasses = (assemble c3doc).1.classes.length :=
  c3_count_invariants c3doc (assemble c3doc).1 rfl

/-- Claim C4 (skip-on-missing-URL): a pair whose image or annotation URL
is empty is skipped with a warning while valid pairs within the loop
bound are still emitted; the concrete P6 pair list yields exactly 2
entries, the second pair being skipped. -/
theorem c4_skip_on_missing_url :
    (∀ imgs anns n i, i < n →
      (imgs.getD i ("") = "" ∨ anns.getD i ("") = "") →
      Warn.skippedEntry i ∈ skipWarns imgs anns n
        ∧ entryStep imgs anns i = none) ∧
    (∀ imgs anns n i, i < n →
      imgs.getD i ("") ≠ "" → anns.getD i ("") ≠ "" →
      ∃ e, entryStep imgs anns i = some e ∧ e ∈ dataEntries imgs anns n) ∧
    ((remap c4doc).1 = Except.ok (assemble c4doc).1 ∧
      (assemble c4doc).1.data.length = 2 ∧
      Warn.skippedEntry 1 ∈ (remap c4doc).2) := by
  refine ⟨?_, ?_, rfl, rfl, by decide⟩
  · intro imgs anns n i hi hc
    constructor
    · unfold skipWarns
      exact List.mem_filterMap.mpr
        ⟨i, List.mem_range.mpr hi, by rw [if_pos hc]⟩
    · unfold entryStep
      rw [if_pos hc]
  · intro imgs anns n i hi h1 h2
    have hc : ¬ (imgs.getD i ("") = "" ∨ anns.getD i ("") = "") := by
      rintro (h | h)
      · exact h1 h
      · exact h2 h
    refine ⟨{ type := ("EOTrainingData")
              id := ("data_") ++ toString i
              dataUrl := [imgs.getD i ("")]
              labels := [{ type := ("PixelLabel")
                           imageUrl := [anns.getD i ("")]
                           imageFormat := [("image/tiff")]
                           className := ("") }] }, ?_, ?_⟩
    · unfold entryStep
      rw [if_neg hc]
    · unfold dataEntries
      exact List.mem_filterMap.mpr
        ⟨i, List.mem_range.mpr hi, by unfold entryStep; rw [if_neg hc]⟩

/-- Witness for C4 at a concrete skipped pair and a concrete valid pair. -/
theorem c4_skip_on_missing_url_witness :
    (Warn.skippedEntry 0 ∈ skipWarns [("")] [("y.tif")] 1
      ∧ entryStep [("")] [("y.tif")] 0 = none) ∧
    (∃ e, entryStep [("x.tif")] [("y.tif")] 0 = some e
      ∧ e ∈ dataEntries [("x.tif")] [("y.tif")] 1) :=
  ⟨c4_skip_on_missing_url.1 [("")] [("y.tif")] 1 0 (by decide) (by decide),
   c4_skip_on_missing_url.2.1 [("x.tif")] [("y.tif")] 1 0 (by decide)
     (by decide) (by decide)⟩

/-- Claim C5 counterexample: `c5docBad.recordSet` is non-empty and no
entry matches the sentinel or contains the marker, yet the conversion
raises the fatal record-set error (after printing the fallback warning):
the sole entry is the empty object, which the post-fallback truthiness
re-check `if not main_record_set` rejects. -/
theorem c5_counterexample :
    c5docBad.recordSet ≠ [] ∧
    matchesHls ⟨none, none⟩ = false ∧
    (remap c5docBad).1 = Except.error errNoRecordSet ∧
    Warn.usingFirstRecordSet ("unknown") ∈ (remap c5docBad).2 :=
  ⟨by decide, by decide, rfl, by decide⟩

/-- Claim C5 (amended): for every source whose `recordSet` is non-empty,
contains no entry named `hls_burn_scars` nor one whose name contains
`hls` case-insensitively, and whose first entry is a non-empty object,
the conversion selects the first entry as the main record set, emits the
fallback warning, and does not raise a fatal error.  (When the first
entry is the empty object the code warns and then still raises.) -/
theorem c5_record_set_fallback (doc : SourceDoc) (rs0 : RecordSet)
    (rest : List RecordSet) (hrs : doc.recordSet = rs0 :: rest)
    (hnm : ∀ rs ∈ doc.recordSet, matchesHls rs = false)
    (htru : rsTruthy rs0 = true) :
    selectMainRecordSet doc.recordSet
      = (Except.ok rs0,
         [Warn.usingFirstRecordSet (rs0.name.getD ("unknown"))]) ∧
    (remap doc).1 = Except.ok (assemble doc).1 ∧
    Warn.usingFirstRecordSet (rs0.name.getD ("unknown")) ∈ (remap doc).2 := by
  have hfind : doc.recordSet.find? matchesHls = none := by
    rw [List.find?_eq_none]
    intro x hx
    simp [hnm x hx]
  have hsel : selectMainRecordSet doc.recordSet
      = (Except.ok rs0,
         [Warn.usingFirstRecordSet (rs0.name.getD ("unknown"))]) := by
    unfold selectMainRecordSet
    rw [hfind, hrs]
    simp [htru]
  refine ⟨hsel, ?_, ?_⟩
  · unfold remap
    rw [hsel]
  · unfold remap
    rw [hsel]
    simp

/-- Witness for C5 (amended) at a concrete two-entry record set. -/
theorem c5_record_set_fallback_witness :
    selectMainRecordSet c5docW.recordSet
      = (Except.ok ⟨some ("other"), none⟩,
         [Warn.usingFirstRecordSet ("other")]) ∧
    (remap c5docW).1 = Except.ok (assemble c5docW).1 ∧
    Warn.usingFirstRecordSet ("other") ∈ (remap c5docW).2 :=
  c5_record_set_fallback c5docW ⟨some ("other"), none⟩
    [⟨some ("foo"), none⟩] rfl (by decide) (by decide)

/-- Claim C6 (default substitution): a successful conversion of a source
that yields no band from either supported band shape outputs exactly the
canonical 6-band HLS default, and one that yields no class from either
supported class shape outputs exactly the canonical 3-class default. -/
theorem c6_default_substitution :
    (∀ doc t, (remap doc).1 = Except.ok t →
      sensorBands doc = [] →
      (∀ rs ∈ doc.recordSet, fieldBands (rs.field.getD []) = []) →
      t.bands = DEFAULT_BANDS) ∧
    (∀ doc t, (remap doc).1 = Except.ok t →
      mlClassesOf doc = [] →
      (∀ rs ∈ doc.recordSet, fieldClasses (rs.field.getD []) = []) →
      t.classes = DEFAULT_CLASSES) := by
  constructor
  · intro doc t h hb _
    have ht := remap_ok_eq doc t h
    subst ht
    show bandsOf doc = DEFAULT_BANDS
    unfold bandsOf
    rw [if_pos hb]
  · intro doc t h hc _
    have ht := remap_ok_eq doc t h
    subst ht
    show classesOf doc = DEFAULT_CLASSES
    unfold classesOf
    rw [if_pos hc]

/-- Witness for C6 at a document with no band or class configuration. -/
theorem c6_default_substitution_witness :
    (assemble c6doc).1.bands = DEFAULT_BANDS
      ∧ (assemble c6doc).1.classes = DEFAULT_CLASSES :=
  ⟨c6_default_substitution.1 c6doc (assemble c6doc).1 rfl rfl (by decide),
   c6_default_substitution.2 c6doc (assemble c6doc).1 rfl rfl (by decide)⟩

/-- Claim C7 counterexample: with `geocr:mlTask.classes =
["BurnScar", "Other"]` the output class keys are `["1", "1"]`: `BurnScar`
takes `"1"` from the table and the unrecognized `Other` is keyed
`str(len(classes)) = "1"`, so the keys are not pairwise distinct. -/
theorem c7_counterexample :
    (remap c7doc).1 = Except.ok (assemble c7doc).1 ∧
    (assemble c7doc).1.classes.map ClassEntry.key = [("1"), ("1")] ∧
    ¬ ((assemble c7doc).1.classes.map ClassEntry.key).Nodup :=
  ⟨rfl, rfl, by decide⟩

/-- Claim C7 (amended): when class names come from `geocr:mlTask.classes`,
each name at position `i` is keyed through the fixed table when
recognized and by `str(i)` otherwise (one entry is appended per name, so
the running class count equals the position); the keys need not be
pairwise distinct in general, but they are whenever the names are
pairwise distinct and all recognized by the table. -/
theorem c7_class_key_assignment :
    (∀ doc t names, (remap doc).1 = Except.ok t →
      doc.mlTaskClasses = some names → names ≠ [] →
      t.classes = (withIdx 0 names).map
        (fun p => { key := (class_mapping p.2).getD (toString p.1)
                    value := p.2 })) ∧
    (∀ names, names.Nodup →
      (∀ n ∈ names, (class_mapping n).isSome = true) →
      ((mlClasses names).map ClassEntry.key).Nodup) := by
  constructor
  · intro doc t names h hml hne
    have ht := remap_ok_eq doc t h
    subst ht
    show classesOf doc = _
    have hmc : mlClassesOf doc = mlClasses names := by
      unfold mlClassesOf
      rw [hml]
      rfl
    have hnz : mlClassesOf doc ≠ [] := by
      rw [hmc]
      intro hz
      apply hne
      have := mlClasses_length names
      rw [hz] at this
      exact List.length_eq_zero.mp this.symm
    unfold classesOf
    rw [if_neg hnz, hmc, mlClasses_eq]
  · intro names hnd hrec
    rw [mlClasses_eq names, withIdx_keys_recognized names 0 hrec]
    refine hnd.map_on ?_
    intro x hx y hy hxy
    have hxs := hrec x hx
    have hys := hrec y hy
    rcases Option.isSome_iff_exists.mp hxs with ⟨vx, hvx⟩
    rcases Option.isSome_iff_exists.mp hys with ⟨vy, hvy⟩
    have hv : vx = vy := by
      rw [hvx, hvy] at hxy
      simpa using hxy
    apply class_mapping_inj x y hxs
    rw [hvx, hvy, hv]

/-- Witness for C7 (amended): recognized, pairwise-distinct names yield
pairwise-distinct keys. -/
theorem c7_class_key_assignment_witness :
    ((mlClasses [("NotBurned"), ("BurnScar")]).map ClassEntry.key).Nodup :=
  c7_class_key_assignment.2 [("NotBurned"), ("BurnScar")]
    (by decide) (by decide)

/-- Claim C8 (fatal on empty record set): a source with `recordSet = []`
raises the fatal no-record-set condition, which differs from both the
malformed-input condition and the not-found condition (all three raise
sites use distinct messages; the no-record-set and malformed-input
conditions share the Python class `ValueError`), and no output is
written. -/
theorem c8_fatal_on_empty_record_set (doc : SourceDoc)
    (h : doc.recordSet = []) :
    (remap doc).1 = Except.error errNoRecordSet ∧
    errNoRecordSet ≠ errInvalidJSON ∧
    errNoRecordSet ≠ errFileNotFound ∧
    writeStage (remap doc).1 = none := by
  have hsel : selectMainRecordSet doc.recordSet
      = (Except.error errNoRecordSet, []) := by
    rw [h]
    rfl
  have hrm : (remap doc).1 = Except.error errNoRecordSet := by
    unfold remap
    rw [hsel]
  refine ⟨hrm, by decide, by decide, ?_⟩
  rw [hrm]
  rfl

/-- Witness for C8 at the concrete empty-record-set document. -/
theorem c8_fatal_on_empty_record_set_witness :
    (remap c8doc).1 = Except.error errNoRecordSet ∧
    errNoRecordSet ≠ errInvalidJSON ∧
    errNoRecordSet ≠ errFileNotFound ∧
    writeStage (remap c8doc).1 = none :=
  c8_fatal_on_empty_record_set c8doc rfl

/-- Claim C9 counterexample: `c9doc` carries the record-set band shape
(a field whose name contains `image` with
`geocr:bandConfiguration.totalBands`) and lacks the top-level shape, yet
the emitted bands are the canonical defaults, not the bands of the
record-set shape: the converter never falls through to that shape. -/
theorem c9_counterexample :
    sensorBands c9doc = [] ∧
    fieldBands [c9fld] ≠ [] ∧
    (remap c9doc).1 = Except.ok (assemble c9doc).1 ∧
    (assemble c9doc).1.bands = DEFAULT_BANDS ∧
    (assemble c9doc).1.bands ≠ fieldBands [c9fld] :=
  ⟨rfl, by decide, rfl, rfl, by decide⟩

/-- Claim C9 (amended): band extraction in the current converter uses only
the top-level `geocr:sensorCharacteristics[0].bandConfiguration` shape:
when that shape yields bands they are emitted (one descriptor per key
starting with `band`, in source object iteration order), and otherwise
the canonical 6-band default is emitted — the record-set field shape
(`geocr:bandConfiguration` under an `image` field) is never consulted;
that shape is read only by the older converter variant, as its sole
shape. -/
theorem c9_top_level_band_shape_only :
    (∀ doc t, (remap doc).1 = Except.ok t → sensorBands doc ≠ [] →
      t.bands = sensorBands doc) ∧
    (∀ doc t, (remap doc).1 = Except.ok t → sensorBands doc = [] →
      t.bands = DEFAULT_BANDS) := by
  constructor
  · intro doc t h hb
    have ht := remap_ok_eq doc t h
    subst ht
    show bandsOf doc = sensorBands doc
    unfold bandsOf
    rw [if_neg hb]
  · intro doc t h hb
    have ht := remap_ok_eq doc t h
    subst ht
    show bandsOf doc = DEFAULT_BANDS
    unfold bandsOf
    rw [if_pos hb]

/-- Witness for C9 (amended) at a document with a top-level band shape. -/
theorem c9_top_level_band_shape_only_witness :
    (assemble c9wdoc).1.bands = sensorBands c9wdoc :=
  c9_top_level_band_shape_only.1 c9wdoc (assemble c9wdoc).1 rfl (by decide)

/-- Claim C10 (name/description defaults): the name default applies only
when the `name` key is absent — a present empty `name` is passed through
as the empty string — whereas the description fallback
`"No description provided."` is substituted whenever the description is
absent or empty. -/
theorem c10_name_description_defaults (doc : SourceDoc) (t : Tdml)
    (h : (remap doc).1 = Except.ok t) :
    (doc.name = some ("") → t.name = "") ∧
    (doc.name = none → t.name = "HLS_Burn_Scars") ∧
    (∀ s, doc.name = some s → t.name = s) ∧
    (doc.description = "" → t.description = "No description provided.") ∧
    (doc.description ≠ "" → t.description = doc.description) := by
  have ht := remap_ok_eq doc t h
  subst ht
  refine ⟨?_, ?_, ?_, ?_, ?_⟩
  · intro h1
    show nameOf doc = ""
    unfold nameOf
    rw [h1]
    rfl
  · intro h1
    show nameOf doc = "HLS_Burn_Scars"
    unfold nameOf
    rw [h1]
    rfl
  · intro s h1
    show nameOf doc = s
    unfold nameOf
    rw [h1]
    rfl
  · intro h1
    show descriptionOf doc = "No description provided."
    unfold descriptionOf
    rw [if_pos h1]
  · intro h1
    show descriptionOf doc = doc.description
    unfold descriptionOf
    rw [if_neg h1]

/-- Witness for C10 at a document with a present-but-empty `name` and an
empty `description`. -/
theorem c10_name_description_defaults_witness :
    (assemble c10doc).1.name = ""
      ∧ (assemble c10doc).1.description = "No description provided." :=
  ⟨(c10_name_description_defaults c10doc (assemble c10doc).1 rfl).1 rfl,
   (c10_name_description_defaults c10doc
      (assemble c10doc).1 rfl).2.2.2.1 rfl⟩
